import Mathlib

/-!
Shallow embedding of the commit-planning workflow of `usecases/commit/main.go`
(package `commit`) from the nomi repository.

External collaborators (the console/command executor, the text-to-JSON
backend, the boolean selector, the input area, the JSON unmarshaller of the
Go standard library, the wall clock, and the cancellation signal) are
modelled as oracles collected in an `Env`.  The workflow itself is a pure
state-passing translation of `OnStart` and its helpers; the state records
the sequence of external commands issued (`trace`), the conversation, the
transcripts sent to the text-generation backend (`genTrace`), the log lines,
and the accumulated per-action error strings (`errs`, the `errors` slice of
the Go code).
-/

/-- A role tag of a chat message (`chat.Role`). -/
inductive Role where
  | system
  | user
  | assistant
deriving DecidableEq, Repr

/-- A chat message (`chat.NewMessage(role, content)`). -/
structure Message where
  role : Role
  content : String
deriving DecidableEq, Repr

/-- An external command, as built by `tools.NewCommand(prog, args...)`,
optionally with stdin attached by `.WithInput`. -/
structure Command where
  program : String
  args : List String
  input : Option String
deriving DecidableEq, Repr

/-- The result of one external command execution (`tools` result):
success flag, captured stdout (`result.Output`), captured stderr text
(`result.Error`). -/
structure ExecResult where
  success : Bool
  output : String
  err : String
deriving DecidableEq, Repr

/-- Outcome of `console.Exec`: either a Go-level `error` (err != nil),
carrying its message, or an `ExecResult`. -/
inductive ExecOutcome where
  | goErr (msg : String)
  | res (r : ExecResult)
deriving DecidableEq, Repr

/-- One action of the commit plan (`action` struct, JSON wire format). -/
structure action where
  FilePath : String
  Patch : String
  CommitMessage : String
deriving DecidableEq, Repr

/-- The commit plan (`commitPlan` struct, JSON wire format). -/
structure commitPlan where
  CommitPlan : List action
deriving DecidableEq, Repr

/-- The environment of oracles standing for the external collaborators.
Each oracle is indexed by the number of calls made to it so far, so that a
run of the workflow is a deterministic function of the environment.
`parsePlan` stands for `json.Unmarshal` of the Go standard library applied
to the commit-plan wire format; `stamp` stands for the formatted
`time.Now()` timestamp; `done` indexed by negotiation round stands for the
`ctx.Done()` channel check of the `select`. -/
structure Env where
  exec : Nat -> ExecOutcome
  gen : Nat -> Except String String
  parsePlan : String -> Except String commitPlan
  sel : Nat -> Bool
  inp : Nat -> String
  done : Nat -> Bool
  stamp : String

/-- The observable state threaded through the workflow. -/
structure WfState where
  execCount : Nat
  genCount : Nat
  selCount : Nat
  inpCount : Nat
  trace : List Command
  genTrace : List (List Message)
  conversation : List Message
  logs : List String
  errs : List String
deriving DecidableEq, Repr

/-- The fresh state at workflow entry, with the caller-supplied
conversation. -/
def initState (conv0 : List Message) : WfState :=
  { execCount := 0, genCount := 0, selCount := 0, inpCount := 0,
    trace := [], genTrace := [], conversation := conv0, logs := [], errs := [] }

/-- Append a log line (any of the `logger` sinks). -/
def logPut (s : WfState) (m : String) : WfState :=
  { s with logs := s.logs ++ [m] }

/-- Record a per-action error (`errors = append(errors, ...)`). -/
def addErr (s : WfState) (e : String) : WfState :=
  { s with errs := s.errs ++ [e] }

/-- Issue one external command through the console (`console.Exec`):
the command is appended to the trace and the next oracle outcome is
consumed. -/
def execCmd (env : Env) (s : WfState) (c : Command) : ExecOutcome × WfState :=
  (env.exec s.execCount, { s with trace := s.trace ++ [c], execCount := s.execCount + 1 })

/-- `git rev-parse --is-inside-work-tree` (`checkGitRepository`). -/
def revParseCmd : Command :=
  { program := "git", args := ["rev-parse", "--is-inside-work-tree"], input := none }

/-- `git stash push --include-untracked --message nomi-stash-<stamp>`
(`stashChanges`). -/
def stashPushCmd (stamp : String) : Command :=
  { program := "git",
    args := ["stash", "push", "--include-untracked", "--message", "nomi-stash-" ++ stamp],
    input := none }

/-- `git stash show --include-untracked --patch stash@{0}`
(`getStashDiff`). -/
def stashShowCmd : Command :=
  { program := "git",
    args := ["stash", "show", "--include-untracked", "--patch", "stash@\x7b0\x7d"],
    input := none }

/-- `git stash apply stash@{0}` (`unstashChanges`). -/
def stashApplyCmd : Command :=
  { program := "git", args := ["stash", "apply", "stash@\x7b0\x7d"], input := none }

/-- `git reset` (`unstashChanges`). -/
def resetCmd : Command :=
  { program := "git", args := ["reset"], input := none }

/-- `git stash drop stash@{0}` (`deleteStash`). -/
def stashDropCmd : Command :=
  { program := "git", args := ["stash", "drop", "stash@\x7b0\x7d"], input := none }

/-- `git apply --cached -p1 -` with the patch attached as stdin
(the staging command of the plan executor in `OnStart`). -/
def applyPatchCmd (patch : String) : Command :=
  { program := "git", args := ["apply", "--cached", "-p1", "-"], input := some patch }

/-- `git commit --message <msg>` (the commit command of the plan executor
in `OnStart`). -/
def commitCmd (msg : String) : Command :=
  { program := "git", args := ["commit", "--message", msg], input := none }

/-- `checkGitRepository`: run the rev-parse command; a Go-level error or a
non-success result is reported as "not a git repository". -/
def checkGitRepository (env : Env) (s : WfState) : Except String Unit × WfState :=
  let (o, s) := execCmd env s revParseCmd
  match o with
  | ExecOutcome.goErr _ => (Except.error "not a git repository", s)
  | ExecOutcome.res r =>
    if r.success then (Except.ok (), s)
    else (Except.error "not a git repository", s)

/-- Trimming of leading and trailing whitespace (`strings.TrimSpace`),
written structurally on the character list of the string. -/
def trimChars (l : List Char) : List Char :=
  ((l.dropWhile Char.isWhitespace).reverse.dropWhile Char.isWhitespace).reverse

/-- The stash-reference extraction of `stashChanges`: the head of
`strings.Split` on newline is the text before the first newline, the head
of `strings.Split` on colon is the text before the first colon, and the
result is trimmed with `strings.TrimSpace`. -/
def extractStashRef (out : String) : String :=
  ⟨trimChars ((out.data.takeWhile (fun ch => ch ≠ '\n')).takeWhile (fun ch => ch ≠ ':'))⟩

/-- `stashChanges`: issue the stash push; on a Go-level error or a
non-success result fail, surfacing stderr, else stdout, else a generic
no-output message; on success fail anyway when the extracted stash
reference is empty. -/
def stashChanges (env : Env) (s : WfState) : Except String Unit × WfState :=
  let (o, s) := execCmd env s (stashPushCmd env.stamp)
  match o with
  | ExecOutcome.goErr e => (Except.error ("failed to stash changes: " ++ e), s)
  | ExecOutcome.res r =>
    if r.success then
      if extractStashRef r.output = "" then
        (Except.error "unable to retrieve stash reference", s)
      else (Except.ok (), s)
    else
      if r.err != "" then (Except.error ("failed to stash changes: " ++ r.err), s)
      else if r.output != "" then (Except.error ("failed to stash changes: " ++ r.output), s)
      else (Except.error "failed to stash changes and received no output", s)

/-- `getStashDiff`: show the most recent stash as a patch; a Go-level error
or a non-success result is "failed to show stash diff"; on success the
captured stdout is the diff. -/
def getStashDiff (env : Env) (s : WfState) : Except String String × WfState :=
  let (o, s) := execCmd env s stashShowCmd
  match o with
  | ExecOutcome.goErr _ => (Except.error "failed to show stash diff", s)
  | ExecOutcome.res r =>
    if r.success then (Except.ok r.output, s)
    else (Except.error "failed to show stash diff", s)

/-- `unstashChanges`: apply the most recent stash back onto the working
tree, then run a mixed reset; each step fails on a Go-level error or a
non-success result. -/
def unstashChanges (env : Env) (s : WfState) : Except String Unit × WfState :=
  let (o, s) := execCmd env s stashApplyCmd
  match o with
  | ExecOutcome.goErr _ => (Except.error "failed to unstash changes", s)
  | ExecOutcome.res r =>
    if r.success then
      let (o2, s) := execCmd env s resetCmd
      match o2 with
      | ExecOutcome.goErr _ => (Except.error "failed to reset changes", s)
      | ExecOutcome.res r2 =>
        if r2.success then (Except.ok (), s)
        else (Except.error "failed to reset changes", s)
    else (Except.error "failed to unstash changes", s)

/-- `deleteStash`: drop the most recent stash; fails on a Go-level error or
a non-success result. -/
def deleteStash (env : Env) (s : WfState) : Except String Unit × WfState :=
  let (o, s) := execCmd env s stashDropCmd
  match o with
  | ExecOutcome.goErr _ => (Except.error "failed to delete stash", s)
  | ExecOutcome.res r =>
    if r.success then (Except.ok (), s)
    else (Except.error "failed to delete stash", s)

/-- The trailing-newline normalization of the plan executor:
`if !strings.HasSuffix(a.Patch, "\n") { a.Patch += "\n" }`.
A string has the suffix "\n" exactly when its last character is a newline. -/
def normalizePatch (p : String) : String :=
  if p.data.getLast? = some (Char.ofNat 10) then p else p ++ "\n"

/-- The system instruction constant `agentPrompt`. -/
def agentPrompt : String :=
  "Create a commit plan in JSON format for staging patches and creating commits using Git, adhering to provided guidelines.\n\n## JSON Structure\n\nThe commit plan should be represented as a JSON object containing a list of actions. Each action includes both a `patch` and a `commit`:\n\n- **Action**: Contains the file path, the Git patch, and the commit message.\n\n### Steps\n\n1. **Analyze the Git Diff:**\n - Group related changes into features or fixes.\n - Determine necessity for multiple commits for unrelated changes.\n\n2. **Prepare Staging Commands:**\n - Use `git apply --cached` to stage specific lines.\n - Ensure accurate staging for atomic, feature-specific commits.\n\n3. **Generate Commit Messages:**\n - Maintain present tense with an appropriate prefix and scope.\n - Exclude meaningless component names (e.g., \"internal\") from commit titles.\n - Preserve only significant component names.\n - Keep messages concise, within 75 characters for titles.\n\n## Commit Message Specifications\n\n- **Tense:** Present\n- **Prefixes:** `feat:`, `fix:`, `docs:`, `style:`, `refactor:`, `perf:`, `test:`, `chore:`, `ci:`\n- **Scope:** Specify affected significant component/module in parentheses.\n- **No Body:** Keep it concise unless additional description is necessary.\n\n### Additional Guidelines\n\n- Group related changes for the same feature in a single commit.\n- Use multiple commits for unrelated changes.\n- Ensure messages are clear, concise, and specific.\n- Maintain consistent scoping based on file paths and modules.\n\n## Output Format\n\nProvide the commit plan in a plain JSON format containing the necessary actions with both `patch` and `commit` details.\n\n## Example Commit Plan\n\n\x7b\n \"commitPlan\": [\n \x7b\n \"filePath\": \"cmd/cli/main.go\",\n \"patch\": \"diff --git a/cmd/cli/main.go b/cmd/cli/main.go\\nindex 83c3e7f..b4b49b6 100644\\n--- a/cmd/cli/main.go\\n+++ b/cmd/cli/main.go\\n@@ -10,6 +10,7 @@ package main\\n import (\\n \\\"fmt\\\"\\n \\\"os\\\"\\n+ \\\"time\\\"\\n )\\n\",\n \"commitMessage\": \"feat(cmd/cli): add time import\"\n \x7d,\n \x7b\n \"filePath\": \"internal/prompts/templates.go\",\n \"patch\": \"diff --git a/internal/prompts/templates.go b/internal/prompts/templates.go\\nindex e69de29..f8a7e5d 100644\\n--- a/internal/prompts/templates.go\\n+++ b/internal/prompts/templates.go\\n@@ -0,0 +1 @@\\n+// New templates for prompts\\n\",\n \"commitMessage\": \"docs(prompts): add new templates for prompts\"\n \x7d\n ]\n\x7d"

/-- The plan executor of `OnStart` (the `for i, a := range plan.CommitPlan`
loop): for each action, in order, normalize the patch, stage it via
`git apply --cached -p1 -`; on a Go-level error or a non-success result
record a per-action error tagged with the loop index and continue;
otherwise commit with the action message under the same
continue-on-failure policy, logging a confirmation on full success. -/
def execPlan (env : Env) : List action -> Nat -> WfState -> WfState
  | [], _, s => s
  | a :: rest, i, s =>
    let (o, s) := execCmd env s (applyPatchCmd (normalizePatch a.Patch))
    match o with
    | ExecOutcome.goErr e =>
      execPlan env rest (i + 1)
        (addErr s ("failed to apply patch " ++ toString i ++ ": " ++ e))
    | ExecOutcome.res r =>
      if r.success then
        let (o2, s) := execCmd env s (commitCmd a.CommitMessage)
        match o2 with
        | ExecOutcome.goErr e =>
          execPlan env rest (i + 1)
            (addErr s ("failed to commit changes " ++ toString i ++ ": " ++ e))
        | ExecOutcome.res r2 =>
          if r2.success then
            execPlan env rest (i + 1) (logPut s ("Committed " ++ a.CommitMessage))
          else
            execPlan env rest (i + 1)
              (addErr s ("failed to commit changes " ++ toString i ++ ": " ++ r2.err))
      else
        execPlan env rest (i + 1)
          (addErr s ("failed to apply patch " ++ toString i ++ ": " ++ r.err))

/-- One message appended as a user turn. -/
def userMsg (content : String) : Message :=
  { role := Role.user, content := content }

/-- The negotiation loop of `OnStart` (the `for / select` statement).
Each round first checks the cancellation signal, then sends the whole
conversation to the text-to-JSON backend, unmarshals the response, prints
the plan summary, and asks the selector; on acceptance the plan executor
runs and the loop returns `ok`, on rejection the input area is read and the
text appended to the conversation as a user turn before the next round.
The Go loop is unbounded; `fuel` bounds the modelled recursion and its
exhaustion is a modelling artifact no theorem relies on. -/
def negotiationLoop (env : Env) : Nat -> Nat -> WfState -> Except String Unit × WfState
  | 0, _, s => (Except.error "negotiation fuel exhausted", s)
  | Nat.succ fuel, round, s =>
    if env.done round then (Except.error "context cancelled", s)
    else
      let s := logPut s "Creating commit plan"
      let k := s.genCount
      let s := { s with genCount := k + 1, genTrace := s.genTrace ++ [s.conversation] }
      match env.gen k with
      | Except.error e => (Except.error ("failed to convert text to JSON: " ++ e), s)
      | Except.ok resp =>
        let s := logPut s ("Raw Commit plan: " ++ resp)
        match env.parsePlan resp with
        | Except.error e => (Except.error ("failed to unmarshal commit plan: " ++ e), s)
        | Except.ok plan =>
          let s := logPut s "Commit Plan:"
          let s := { s with logs := s.logs ++ plan.CommitPlan.map (fun (a : action) => "\t" ++ a.CommitMessage) }
          let accept := env.sel s.selCount
          let s := { s with selCount := s.selCount + 1 }
          if accept then (Except.ok (), execPlan env plan.CommitPlan 0 s)
          else
            let instr := env.inp s.inpCount
            let s := { s with inpCount := s.inpCount + 1,
                              conversation := s.conversation ++ [userMsg instr] }
            negotiationLoop env fuel (round + 1) s

/-- The body of `OnStart` from the "Getting stash diff" step onward (the
part of the function in the scope of the deferred `deleteStash`): extract
the stash diff, terminate successfully when it is empty, otherwise append
it to the conversation as a user turn and enter the negotiation loop. -/
def runBody (env : Env) (fuel : Nat) (s : WfState) : Except String Unit × WfState :=
  let s := logPut s "Getting stash diff"
  match getStashDiff env s with
  | (Except.error e, s) => (Except.error ("failed to get stash diff: " ++ e), s)
  | (Except.ok buf, s) =>
    let s := logPut s ("Stash diff: " ++ buf)
    if buf = "" then (Except.ok (), logPut s "No changes to commit")
    else
      let s := { s with conversation := s.conversation ++ [userMsg buf] }
      negotiationLoop env fuel 0 s

/-- `OnStart`: append the system instruction to the conversation, check the
repository, capture (stash push), replay (stash apply + reset); the
deferred stash drop is registered only then, so it runs on every exit path
from this point on, its own failure only logged; then run the body. -/
def OnStart (env : Env) (fuel : Nat) (conv0 : List Message) : Except String Unit × WfState :=
  let s := logPut (initState conv0) "Starting commit usecase"
  let s := { s with conversation := s.conversation ++ [{ role := Role.system, content := agentPrompt }] }
  match checkGitRepository env s with
  | (Except.error e, s) => (Except.error ("not a git repository: " ++ e), s)
  | (Except.ok _, s) =>
    let s := logPut s "Stashing changes"
    match stashChanges env s with
    | (Except.error e, s) => (Except.error ("failed to stash changes: " ++ e), s)
    | (Except.ok _, s) =>
      match unstashChanges env s with
      | (Except.error e, s) => (Except.error ("failed to unstash changes: " ++ e), s)
      | (Except.ok _, s) =>
        let (r, s) := runBody env fuel s
        let (dr, s) := deleteStash env s
        match dr with
        | Except.error e => (r, logPut s ("Failed to delete stash: " ++ e))
        | Except.ok _ => (r, s)

/-- The system-instruction message `OnStart` appends to the conversation. -/
def sysMsg : Message :=
  { role := Role.system, content := agentPrompt }

/-- Classification of an exec outcome as accepted by the
`err != nil || !result.Success()` checks of the repository check, the
replay steps, the diff step, and the release step. -/
def okOutcome : ExecOutcome -> Bool
  | ExecOutcome.goErr _ => false
  | ExecOutcome.res r => r.success

/-- Classification of an exec outcome as accepted by `stashChanges`:
the command must succeed and the extracted stash reference must be
non-empty. -/
def stashOutcomeOk : ExecOutcome -> Bool
  | ExecOutcome.goErr _ => false
  | ExecOutcome.res r => r.success && !(extractStashRef r.output = "")

/-- Whether the repository check, capture, and both replay commands of a
run of `OnStart` under `env` all succeed (they consume the first four exec
outcomes, in this order). -/
def setupOk (env : Env) : Bool :=
  okOutcome (env.exec 0) && stashOutcomeOk (env.exec 1)
    && okOutcome (env.exec 2) && okOutcome (env.exec 3)

/-- The workflow state after a fully successful repository check, capture,
and replay in `OnStart` on initial conversation `conv0`. -/
def setupState (env : Env) (conv0 : List Message) : WfState :=
  { execCount := 4, genCount := 0, selCount := 0, inpCount := 0,
    trace := [revParseCmd, stashPushCmd env.stamp, stashApplyCmd, resetCmd],
    genTrace := [], conversation := conv0 ++ [sysMsg],
    logs := ["Starting commit usecase", "Stashing changes"], errs := [] }

/-- The remainder of `OnStart` after a successful setup: the body runs,
then the deferred stash drop, whose own failure is only logged. -/
def afterSetup (env : Env) (fuel : Nat) (conv0 : List Message) : Except String Unit × WfState :=
  let rs := runBody env fuel (setupState env conv0)
  let ds := deleteStash env rs.2
  match ds.1 with
  | Except.error e => (rs.1, logPut ds.2 ("Failed to delete stash: " ++ e))
  | Except.ok _ => (rs.1, ds.2)

/-- The commands the plan executor issues for a plan when every invocation
succeeds: one staging command and one commit command per action, in plan
order. -/
def planCmds : List action -> List Command
  | [] => []
  | a :: rest =>
    applyPatchCmd (normalizePatch a.Patch) :: commitCmd a.CommitMessage :: planCmds rest

/-- The commands the C5 claim permits in an empty-diff run — capture,
restore (the stash apply together with its accompanying reset), release —
stated from the claim's words, to be compared with the commands the code
issues. -/
def c5AllowedCmd (stamp : String) (c : Command) : Bool :=
  c == stashPushCmd stamp || c == stashApplyCmd || c == resetCmd || c == stashDropCmd

/-- A model of the version-control state the issued commands act on:
the uncommitted changes present in the working tree, the subset recorded
(staged) in the index, and the stash stack, each change an identifier.
git itself is an external collaborator of this repository, so this model
is taken from git's documented command semantics: `git stash push` moves
the working tree's uncommitted changes (with the record of which are
staged) into a new stash entry and cleans both; `git stash apply` without
`--index` restores the entry's working-tree changes but not the staged
status; a plain `git reset` (mixed) clears the index and leaves the
working tree alone; `git stash drop` discards the newest entry. -/
structure GitState where
  worktree : List String
  staged : List String
  stash : List (List String × List String)
deriving DecidableEq, Repr

/-- One step of the git model on one issued command (see `GitState`). -/
def gitStep (g : GitState) (c : Command) : GitState :=
  if c.program ≠ "git" then g
  else if c.args.take 2 = ["stash", "push"] then
    { worktree := [], staged := [], stash := (g.worktree, g.staged) :: g.stash }
  else if c.args.take 2 = ["stash", "apply"] then
    match g.stash with
    | [] => g
    | (w, _) :: _ => { g with worktree := w }
  else if c.args = ["reset"] then { g with staged := [] }
  else if c.args.take 2 = ["stash", "drop"] then { g with stash := g.stash.tail }
  else g

/-- A successful exec outcome whose stdout yields a non-empty stash
reference. -/
def okStashOutcome : ExecOutcome :=
  ExecOutcome.res { success := true, output := "On main: nomi work", err := "" }

/-- A concrete environment in which every external invocation succeeds and
a one-action plan is proposed and accepted. -/
def envAllOk : Env :=
  { exec := fun _ => okStashOutcome,
    gen := fun _ => Except.ok "resp",
    parsePlan := fun _ =>
      Except.ok { CommitPlan := [{ FilePath := "f.go", Patch := "p", CommitMessage := "m" }] },
    sel := fun _ => true,
    inp := fun _ => "more",
    done := fun _ => false,
    stamp := "T" }

/-- A concrete environment in which the repository check fails with a
Go-level error. -/
def envCheckFails : Env :=
  { envAllOk with exec := fun _ => ExecOutcome.goErr "exec: git not found" }

/-- A concrete environment in which everything succeeds except the single
staging invocation of the accepted one-action plan (call index 5), which
reports non-success with stderr "boom". -/
def envApplyFails : Env :=
  { envAllOk with
    exec := fun n =>
      if n = 5 then ExecOutcome.res { success := false, output := "", err := "boom" }
      else okStashOutcome }

/-- A concrete environment for the plan executor alone, in which the third
invocation (call index 2, the staging of the second action) reports
non-success with stderr "boom" and every other invocation succeeds. -/
def envSecondApplyFails : Env :=
  { envAllOk with
    exec := fun n =>
      if n = 2 then ExecOutcome.res { success := false, output := "", err := "boom" }
      else okStashOutcome }

/-- A concrete environment in which setup succeeds and the extracted
snapshot diff (call index 4) is empty. -/
def envEmptyDiff : Env :=
  { envAllOk with
    exec := fun n =>
      if n = 4 then ExecOutcome.res { success := true, output := "", err := "" }
      else okStashOutcome }

/-- A three-action plan of concrete actions. -/
def planThree : List action :=
  [{ FilePath := "a.go", Patch := "pa", CommitMessage := "ma" },
   { FilePath := "b.go", Patch := "pb", CommitMessage := "mb" },
   { FilePath := "c.go", Patch := "pc", CommitMessage := "mc" }]

/-- The command trace of a capture followed by a replay, in the all-success
environment, starting from a fresh state. -/
def captureReplayTrace : List Command :=
  (unstashChanges envAllOk (stashChanges envAllOk (initState [])).2).2.trace

/-- The stdout carried by an exec outcome (empty for a Go-level error). -/
def outcomeOut : ExecOutcome -> String
  | ExecOutcome.goErr _ => ""
  | ExecOutcome.res r => r.output

/-- A concrete environment in which the first proposed plan is rejected
(with refinement text read from the input area) and the second backend
response is not valid JSON for the wire format. -/
def envParseFails : Env :=
  { envAllOk with
    gen := fun n => Except.ok (if n = 0 then "planA" else "bad json"),
    parsePlan := fun r =>
      if r = "planA"
      then Except.ok { CommitPlan := [{ FilePath := "f.go", Patch := "p", CommitMessage := "m" }] }
      else Except.error "invalid character",
    sel := fun _ => false,
    inp := fun _ => "only the parser" }

/-- The response script of `envParseFails`. -/
def respParseFails : Nat -> String :=
  fun n => if n = 0 then "planA" else "bad json"

/-- A one-action plan used by the refinement-round environment. -/
def planB : commitPlan :=
  { CommitPlan := [{ FilePath := "g.go", Patch := "q", CommitMessage := "n" }] }

/-- A concrete environment in which the first proposed plan is rejected
with the refinement text "focus only on the parser changes" and the second
proposed plan is accepted; every command succeeds. -/
def envRefine : Env :=
  { envAllOk with
    gen := fun n => Except.ok (if n = 0 then "planA" else "planB"),
    parsePlan := fun r =>
      if r = "planA"
      then Except.ok { CommitPlan := [{ FilePath := "f.go", Patch := "p", CommitMessage := "m" }] }
      else Except.ok planB,
    sel := fun n => decide (1 <= n),
    inp := fun _ => "focus only on the parser changes" }

/-! ## Helper lemmas -/

/-- The plan executor only ever extends the command trace. -/
theorem execPlan_trace_mono (env : Env) :
    ∀ (l : List action) (i : Nat) (s : WfState),
      ∃ t, (execPlan env l i s).trace = s.trace ++ t := by
  intro l
  induction l with
  | nil => exact fun i s => ⟨[], by simp [execPlan]⟩
  | cons a rest ih =>
    intro i s
    simp only [execPlan, execCmd]
    cases env.exec s.execCount with
    | goErr e =>
      obtain ⟨t, ht⟩ := ih (i + 1)
        (addErr { s with trace := s.trace ++ [applyPatchCmd (normalizePatch a.Patch)],
                         execCount := s.execCount + 1 }
          ("failed to apply patch " ++ toString i ++ ": " ++ e))
      exact ⟨applyPatchCmd (normalizePatch a.Patch) :: t, by
        simp only [addErr] at ht
        simpa using ht⟩
    | res r =>
      by_cases hr : r.success
      · simp only [hr, if_true]
        cases h2 : env.exec (s.execCount + 1) with
        | goErr e =>
          obtain ⟨t, ht⟩ := ih (i + 1)
            (addErr { s with trace := (s.trace ++ [applyPatchCmd (normalizePatch a.Patch)]) ++ [commitCmd a.CommitMessage],
                             execCount := s.execCount + 1 + 1 }
              ("failed to commit changes " ++ toString i ++ ": " ++ e))
          refine ⟨applyPatchCmd (normalizePatch a.Patch) :: commitCmd a.CommitMessage :: t, ?_⟩
          simp only [addErr] at ht
          simpa using ht
        | res r2 =>
          by_cases hr2 : r2.success
          · simp only [hr2, if_true]
            obtain ⟨t, ht⟩ := ih (i + 1)
              (logPut { s with trace := (s.trace ++ [applyPatchCmd (normalizePatch a.Patch)]) ++ [commitCmd a.CommitMessage],
                               execCount := s.execCount + 1 + 1 }
                ("Committed " ++ a.CommitMessage))
            refine ⟨applyPatchCmd (normalizePatch a.Patch) :: commitCmd a.CommitMessage :: t, ?_⟩
            simp only [logPut] at ht
            simpa using ht
          · simp only [hr2, if_false]
            obtain ⟨t, ht⟩ := ih (i + 1)
              (addErr { s with trace := (s.trace ++ [applyPatchCmd (normalizePatch a.Patch)]) ++ [commitCmd a.CommitMessage],
                               execCount := s.execCount + 1 + 1 }
                ("failed to commit changes " ++ toString i ++ ": " ++ r2.err))
            refine ⟨applyPatchCmd (normalizePatch a.Patch) :: commitCmd a.CommitMessage :: t, ?_⟩
            simp only [addErr] at ht
            simpa using ht
      · simp only [hr, if_false]
        obtain ⟨t, ht⟩ := ih (i + 1)
          (addErr { s with trace := s.trace ++ [applyPatchCmd (normalizePatch a.Patch)],
                           execCount := s.execCount + 1 }
            ("failed to apply patch " ++ toString i ++ ": " ++ r.err))
        refine ⟨applyPatchCmd (normalizePatch a.Patch) :: t, ?_⟩
        simp only [addErr] at ht
        simpa using ht

/-! ## C8: capture failure surfaces stderr, else stdout, else a generic
no-output message -/

/-- C8: for every capture invocation whose underlying command reports
non-success, `stashChanges` fails with an error surfacing the captured
stderr verbatim if it is non-empty, otherwise the captured stdout verbatim
if that is non-empty, and otherwise the generic no-output variant. -/
theorem c8_snapshot_error_surfacing (env : Env) (s : WfState) (r : ExecResult)
    (h : env.exec s.execCount = ExecOutcome.res r) (hs : r.success = false) :
    (stashChanges env s).1 =
      Except.error
        (if r.err ≠ "" then "failed to stash changes: " ++ r.err
         else if r.output ≠ "" then "failed to stash changes: " ++ r.output
         else "failed to stash changes and received no output") := by
  simp only [stashChanges, execCmd, h, hs]
  by_cases he : r.err = "" <;> by_cases ho : r.output = "" <;>
    simp [he, ho]

/-- Witness for C8 at a concrete failing capture with empty stderr and
non-empty stdout. -/
theorem c8_snapshot_error_surfacing_witness :
    (stashChanges
      { exec := fun _ => ExecOutcome.res { success := false, output := "out text", err := "" },
        gen := fun _ => Except.error "unused", parsePlan := fun _ => Except.error "unused",
        sel := fun _ => false, inp := fun _ => "", done := fun _ => false, stamp := "T" }
      (initState [])).1 =
      Except.error
        (if ("" : String) ≠ "" then "failed to stash changes: " ++ ""
         else if ("out text" : String) ≠ "" then "failed to stash changes: " ++ "out text"
         else "failed to stash changes and received no output") :=
  c8_snapshot_error_surfacing _ _ { success := false, output := "out text", err := "" }
    rfl rfl

/-! ## C9: trailing-newline normalization of the patch body -/

/-- When the plan executor processes an action, the staging command handed
to the execution gateway carries the normalized patch as its stdin. -/
theorem execPlan_first_command (env : Env) (s : WfState) (a : action)
    (rest : List action) (i : Nat) :
    ∃ t, (execPlan env (a :: rest) i s).trace
      = s.trace ++ applyPatchCmd (normalizePatch a.Patch) :: t := by
  have key : ∀ s' : WfState,
      (∃ pre, s'.trace = s.trace ++ applyPatchCmd (normalizePatch a.Patch) :: pre) →
      ∃ t, (execPlan env rest (i + 1) s').trace
        = s.trace ++ applyPatchCmd (normalizePatch a.Patch) :: t := by
    rintro s' ⟨pre, hpre⟩
    obtain ⟨t, ht⟩ := execPlan_trace_mono env rest (i + 1) s'
    refine ⟨pre ++ t, ?_⟩
    rw [ht, hpre]
    simp
  simp only [execPlan, execCmd]
  cases env.exec s.execCount with
  | goErr e => exact key _ ⟨[], by simp [addErr]⟩
  | res r =>
    by_cases hr : r.success
    · simp only [hr, if_true]
      cases env.exec (s.execCount + 1) with
      | goErr e => exact key _ ⟨[commitCmd a.CommitMessage], by simp [addErr]⟩
      | res r2 =>
        by_cases hr2 : r2.success
        · simp only [hr2, if_true]
          exact key _ ⟨[commitCmd a.CommitMessage], by simp [logPut]⟩
        · simp only [hr2, if_false]
          exact key _ ⟨[commitCmd a.CommitMessage], by simp [addErr]⟩
    · simp only [hr, if_false]
      exact key _ ⟨[], by simp [addErr]⟩

/-- C9: the patch body handed to the patch-apply invocation is the
normalized one; normalization guarantees a trailing newline, is the
identity on patch bodies already ending in a newline, appends exactly one
newline otherwise, and is idempotent. -/
theorem c9_trailing_newline_normalization (p : String) :
    ((normalizePatch p).data.getLast? = some '\n')
    ∧ (p.data.getLast? = some '\n' → normalizePatch p = p)
    ∧ (p.data.getLast? ≠ some '\n' → normalizePatch p = p ++ "\n")
    ∧ normalizePatch (normalizePatch p) = normalizePatch p
    ∧ (applyPatchCmd (normalizePatch p)).input = some (normalizePatch p)
    ∧ ∀ (env : Env) (s : WfState) (a : action) (rest : List action) (i : Nat),
        ∃ t, (execPlan env (a :: rest) i s).trace
          = s.trace ++ applyPatchCmd (normalizePatch a.Patch) :: t := by
  have hlast : (normalizePatch p).data.getLast? = some '\n' := by
    unfold normalizePatch
    by_cases hp : p.data.getLast? = some '\n'
    · simp [hp]
    · simp only [hp, if_false]
      rw [String.data_append]
      exact List.getLast?_concat _
  refine ⟨hlast, ?_, ?_, ?_, rfl, execPlan_first_command⟩
  · intro hp; simp [normalizePatch, hp]
  · intro hp; simp [normalizePatch, hp]
  · unfold normalizePatch
    by_cases hp : p.data.getLast? = some '\n'
    · simp [hp]
    · simp only [hp, if_false]
      have h2 : ((p ++ "\n").data.getLast? = some '\n') := by
        rw [String.data_append]; exact List.getLast?_concat _
      simp [h2]

/-- Witness for C9 at concrete patch bodies, one without and one with a
trailing newline. -/
theorem c9_trailing_newline_normalization_witness :
    normalizePatch "abc" = "abc" ++ "\n" ∧ normalizePatch "xyz\n" = "xyz\n" :=
  ⟨(c9_trailing_newline_normalization "abc").2.2.1 (by decide),
   (c9_trailing_newline_normalization "xyz\n").2.1 (by decide)⟩

/-! ## C10: empty extracted stash reference fails the capture even on
command success, although the reference is never used afterwards -/

/-- C10: even when the capture command reports success, `stashChanges`
fails with "unable to retrieve stash reference" whenever the trimmed text
before the first colon of the first line of the stdout is empty (in
particular whenever the stdout is empty); yet the diff, replay, and
release operations issue fixed commands that always address the most
recent stash, `stash@{0}`, never the extracted reference. -/
theorem c10_stash_reference (env : Env) (s : WfState) (r : ExecResult)
    (h : env.exec s.execCount = ExecOutcome.res r) (hs : r.success = true)
    (href : extractStashRef r.output = "") :
    (stashChanges env s).1 = Except.error "unable to retrieve stash reference"
    ∧ extractStashRef "" = ""
    ∧ (∀ (env2 : Env) (s2 : WfState),
        (getStashDiff env2 s2).2.trace = s2.trace ++ [stashShowCmd]
        ∧ (deleteStash env2 s2).2.trace = s2.trace ++ [stashDropCmd]
        ∧ ((unstashChanges env2 s2).2.trace = s2.trace ++ [stashApplyCmd]
           ∨ (unstashChanges env2 s2).2.trace = s2.trace ++ [stashApplyCmd, resetCmd]))
    ∧ stashShowCmd.args.getLast? = some "stash@\x7b0\x7d"
    ∧ stashApplyCmd.args.getLast? = some "stash@\x7b0\x7d"
    ∧ stashDropCmd.args.getLast? = some "stash@\x7b0\x7d" := by
  refine ⟨?_, rfl, ?_, rfl, rfl, rfl⟩
  · simp [stashChanges, execCmd, h, hs, href]
  · intro env2 s2
    refine ⟨?_, ?_, ?_⟩
    · simp only [getStashDiff, execCmd]
      cases env2.exec s2.execCount with
      | goErr e => rfl
      | res r2 => by_cases hr2 : r2.success <;> simp [hr2]
    · simp only [deleteStash, execCmd]
      cases env2.exec s2.execCount with
      | goErr e => rfl
      | res r2 => by_cases hr2 : r2.success <;> simp [hr2]
    · simp only [unstashChanges, execCmd]
      cases env2.exec s2.execCount with
      | goErr e => exact Or.inl rfl
      | res r2 =>
        by_cases hr2 : r2.success
        · simp only [hr2, if_true]
          cases env2.exec (s2.execCount + 1) with
          | goErr e => exact Or.inr (by simp)
          | res r3 => by_cases hr3 : r3.success <;> simp [hr3]
        · simp only [hr2, if_false]
          exact Or.inl rfl

/-- Witness for C10 at a concrete successful capture whose stdout is a
whitespace-only first segment. -/
theorem c10_stash_reference_witness :
    (stashChanges
      { exec := fun _ => ExecOutcome.res { success := true, output := "  : not a ref", err := "" },
        gen := fun _ => Except.error "unused", parsePlan := fun _ => Except.error "unused",
        sel := fun _ => false, inp := fun _ => "", done := fun _ => false, stamp := "T" }
      (initState [])).1 = Except.error "unable to retrieve stash reference"
    ∧ extractStashRef "" = "" :=
  ⟨(c10_stash_reference _ _ { success := true, output := "  : not a ref", err := "" }
      rfl rfl (by decide)).1,
   (c10_stash_reference
      { exec := fun _ => ExecOutcome.res { success := true, output := "  : not a ref", err := "" },
        gen := fun _ => Except.error "unused", parsePlan := fun _ => Except.error "unused",
        sel := fun _ => false, inp := fun _ => "", done := fun _ => false, stamp := "T" }
      (initState []) { success := true, output := "  : not a ref", err := "" }
      rfl rfl (by decide)).2.1⟩

/-! ## C1: the release (stash drop) is NOT issued when an early step fails -/

/-- C1 counterexample: in a run where the repository check fails, the
stash-drop invocation is issued zero times, not exactly once — the deferred
release is only registered after the repository check, capture, and replay
have all succeeded. -/
theorem c1_counterexample :
    ((OnStart envCheckFails 1 []).2.trace.count stashDropCmd) = 0 := by
  decide

/-! ## C2: per-action errors are accumulated but never returned -/

/-- C2: in a run whose accepted one-action plan fails to stage, `OnStart`
accumulates the per-action error yet still returns success — the
accumulated error list is discarded, not surfaced to the caller. -/
theorem c2_errors_discarded :
    (OnStart envApplyFails 1 []).1 = Except.ok ()
    ∧ (OnStart envApplyFails 1 []).2.errs = ["failed to apply patch 0: boom"] :=
  ⟨rfl, by decide⟩

/-! ## C3: the per-action error tag is the zero-based index -/

/-- C3 counterexample: for a three-action plan whose second action fails to
stage, the single recorded error is tagged `1` (the zero-based index), not
`2` as the claim's ordinal numbering expects. -/
theorem c3_counterexample :
    (execPlan envSecondApplyFails planThree 0 (initState [])).errs
        = ["failed to apply patch 1: boom"]
    ∧ "failed to apply patch 2: boom"
        ∉ (execPlan envSecondApplyFails planThree 0 (initState [])).errs := by
  decide

/-! ## C5: an empty-diff run issues the repository check and the diff
extraction besides capture, restore, and release -/

/-- C5 counterexample: a run with an empty snapshot diff terminates
successfully, but its command trace is not contained in
capture/restore/release — the repository check and the diff extraction are
also issued. -/
theorem c5_counterexample :
    (OnStart envEmptyDiff 1 []).1 = Except.ok ()
    ∧ ((OnStart envEmptyDiff 1 []).2.trace.all (c5AllowedCmd "T")) = false :=
  ⟨rfl, by decide⟩

/-! ## C4: the replay restores working-tree content but the mixed reset
clears the index -/

/-- C4 counterexample: folding the git model over the commands actually
issued by a successful capture-plus-replay, a workspace with one staged
change keeps its working-tree content but loses its staged status — the
workspace state is not unchanged. -/
theorem c4_counterexample :
    ((captureReplayTrace.foldl gitStep
        { worktree := ["edit"], staged := ["edit"], stash := [] }).worktree = ["edit"])
    ∧ ((captureReplayTrace.foldl gitStep
        { worktree := ["edit"], staged := ["edit"], stash := [] }).staged ≠ ["edit"]) := by
  decide

/-- C4 amended: after a successful capture, the replay issues exactly the
stash apply followed by a mixed reset; in the git model this restores the
working-tree content unchanged, but clears the index, so anything the
developer had staged becomes unstaged (and the snapshot entry survives on
the stash). -/
theorem c4_amended (env : Env) (s : WfState) (r1 r2 r3 : ExecResult)
    (h1 : env.exec s.execCount = ExecOutcome.res r1) (hs1 : r1.success = true)
    (href : extractStashRef r1.output ≠ "")
    (h2 : env.exec (s.execCount + 1) = ExecOutcome.res r2) (hs2 : r2.success = true)
    (h3 : env.exec (s.execCount + 2) = ExecOutcome.res r3) (hs3 : r3.success = true) :
    (unstashChanges env (stashChanges env s).2).2.trace
        = s.trace ++ [stashPushCmd env.stamp, stashApplyCmd, resetCmd]
    ∧ ∀ g : GitState,
        [stashPushCmd env.stamp, stashApplyCmd, resetCmd].foldl gitStep g
          = { worktree := g.worktree, staged := [],
              stash := (g.worktree, g.staged) :: g.stash } := by
  constructor
  · have h3' : env.exec (s.execCount + 1 + 1) = ExecOutcome.res r3 := by
      rw [Nat.add_assoc]; exact h3
    simp [stashChanges, unstashChanges, execCmd, h1, hs1, href, h2, hs2, h3', hs3]
  · intro g
    simp [gitStep, stashPushCmd, stashApplyCmd, resetCmd]

/-- Witness for C4 amended in the all-success environment, on a workspace
with one staged change. -/
theorem c4_amended_witness :
    (unstashChanges envAllOk (stashChanges envAllOk (initState [])).2).2.trace
        = (initState []).trace ++ [stashPushCmd envAllOk.stamp, stashApplyCmd, resetCmd]
    ∧ [stashPushCmd envAllOk.stamp, stashApplyCmd, resetCmd].foldl gitStep
        { worktree := ["w"], staged := ["w"], stash := [] }
      = { worktree := (GitState.mk ["w"] ["w"] []).worktree, staged := [],
          stash := ((GitState.mk ["w"] ["w"] []).worktree, (GitState.mk ["w"] ["w"] []).staged)
            :: (GitState.mk ["w"] ["w"] []).stash } :=
  ⟨(c4_amended envAllOk (initState [])
      { success := true, output := "On main: nomi work", err := "" }
      { success := true, output := "On main: nomi work", err := "" }
      { success := true, output := "On main: nomi work", err := "" }
      rfl rfl (by decide) rfl rfl rfl rfl).1,
   (c4_amended envAllOk (initState [])
      { success := true, output := "On main: nomi work", err := "" }
      { success := true, output := "On main: nomi work", err := "" }
      { success := true, output := "On main: nomi work", err := "" }
      rfl rfl (by decide) rfl rfl rfl rfl).2 (GitState.mk ["w"] ["w"] [])⟩

/-- C3 amended: for a three-action plan where only the second action's
staging invocation reports non-success, the executor records exactly one
error, tagged with the zero-based index 1 of that action, issues no commit
invocation for it, still stages and commits the first and third actions,
and logs confirmations for exactly those two. -/
theorem c3_amended (env : Env) (s : WfState) (a1 a2 a3 : action)
    (r1 r2 r3 r4 r5 : ExecResult)
    (h1 : env.exec s.execCount = ExecOutcome.res r1) (hs1 : r1.success = true)
    (h2 : env.exec (s.execCount + 1) = ExecOutcome.res r2) (hs2 : r2.success = true)
    (h3 : env.exec (s.execCount + 2) = ExecOutcome.res r3) (hs3 : r3.success = false)
    (h4 : env.exec (s.execCount + 3) = ExecOutcome.res r4) (hs4 : r4.success = true)
    (h5 : env.exec (s.execCount + 4) = ExecOutcome.res r5) (hs5 : r5.success = true) :
    execPlan env [a1, a2, a3] 0 s
      = { s with
          execCount := s.execCount + 5,
          trace := s.trace
            ++ [applyPatchCmd (normalizePatch a1.Patch), commitCmd a1.CommitMessage,
                applyPatchCmd (normalizePatch a2.Patch),
                applyPatchCmd (normalizePatch a3.Patch), commitCmd a3.CommitMessage],
          logs := s.logs
            ++ ["Committed " ++ a1.CommitMessage, "Committed " ++ a3.CommitMessage],
          errs := s.errs ++ ["failed to apply patch 1: " ++ r3.err] } := by
  have h3' : env.exec (s.execCount + 1 + 1) = ExecOutcome.res r3 := by
    rw [Nat.add_assoc]; exact h3
  have h4' : env.exec (s.execCount + 1 + 1 + 1) = ExecOutcome.res r4 := by
    rw [Nat.add_assoc, Nat.add_assoc]; exact h4
  have h5' : env.exec (s.execCount + 1 + 1 + 1 + 1) = ExecOutcome.res r5 := by
    rw [Nat.add_assoc, Nat.add_assoc, Nat.add_assoc]; exact h5
  have htag : ("failed to apply patch " ++ toString (1 : Nat)) ++ ": "
      = "failed to apply patch 1: " := by decide
  simp only [execPlan, execCmd, h1, hs1, h2, hs2, h3', hs3, h4', hs4, h5', hs5,
    logPut, addErr, if_true, if_false]
  simp [htag, Nat.add_assoc]

/-- Witness for C3 amended: the concrete three-action plan under the
environment whose third invocation (the second staging) fails. -/
theorem c3_amended_witness :
    execPlan envSecondApplyFails planThree 0 (initState [])
      = { initState [] with
          execCount := 0 + 5,
          trace := (initState []).trace
            ++ [applyPatchCmd (normalizePatch "pa"), commitCmd "ma",
                applyPatchCmd (normalizePatch "pb"),
                applyPatchCmd (normalizePatch "pc"), commitCmd "mc"],
          logs := (initState []).logs ++ ["Committed " ++ "ma", "Committed " ++ "mc"],
          errs := (initState []).errs ++ ["failed to apply patch 1: " ++ "boom"] } :=
  c3_amended envSecondApplyFails (initState [])
    { FilePath := "a.go", Patch := "pa", CommitMessage := "ma" }
    { FilePath := "b.go", Patch := "pb", CommitMessage := "mb" }
    { FilePath := "c.go", Patch := "pc", CommitMessage := "mc" }
    { success := true, output := "On main: nomi work", err := "" }
    { success := true, output := "On main: nomi work", err := "" }
    { success := false, output := "", err := "boom" }
    { success := true, output := "On main: nomi work", err := "" }
    { success := true, output := "On main: nomi work", err := "" }
    rfl rfl rfl rfl rfl rfl rfl rfl rfl rfl

/-! ## Characterization lemmas for the setup steps -/

/-- `checkGitRepository` always issues exactly the rev-parse command and
succeeds exactly when the outcome is accepted. -/
theorem checkGitRepository_eq (env : Env) (s : WfState) :
    checkGitRepository env s
      = ((if okOutcome (env.exec s.execCount) = true then Except.ok ()
          else Except.error "not a git repository"),
         { s with trace := s.trace ++ [revParseCmd], execCount := s.execCount + 1 }) := by
  simp only [checkGitRepository, execCmd]
  cases h : env.exec s.execCount with
  | goErr e => simp [okOutcome]
  | res r => by_cases hr : r.success <;> simp [okOutcome, hr]

/-- `stashChanges` always issues exactly the stash-push command; it
succeeds exactly when the outcome is accepted together with a non-empty
extracted reference. -/
theorem stashChanges_eq (env : Env) (s : WfState) :
    stashChanges env s
      = ((if stashOutcomeOk (env.exec s.execCount) = true then Except.ok ()
          else (stashChanges env s).1),
         { s with trace := s.trace ++ [stashPushCmd env.stamp],
                  execCount := s.execCount + 1 }) := by
  simp only [stashChanges, execCmd]
  cases h : env.exec s.execCount with
  | goErr e => simp [stashOutcomeOk]
  | res r =>
    by_cases hr : r.success
    · by_cases he : extractStashRef r.output = "" <;>
        simp [stashOutcomeOk, hr, he]
    · by_cases h1 : r.err = "" <;> by_cases h2 : r.output = "" <;>
        simp [stashOutcomeOk, hr, h1, h2]

/-- When the capture step is not accepted, `stashChanges` reports an
error. -/
theorem stashChanges_fst_error (env : Env) (s : WfState)
    (h : stashOutcomeOk (env.exec s.execCount) = false) :
    ∃ e, (stashChanges env s).1 = Except.error e := by
  simp only [stashChanges, execCmd]
  cases hc : env.exec s.execCount with
  | goErr e => exact ⟨"failed to stash changes: " ++ e, rfl⟩
  | res r =>
    rw [hc] at h
    by_cases hr : r.success
    · by_cases he : extractStashRef r.output = ""
      · exact ⟨"unable to retrieve stash reference", by simp [hr, he]⟩
      · simp [stashOutcomeOk, hr, he] at h
    · by_cases h1 : r.err = ""
      · by_cases h2 : r.output = ""
        · exact ⟨"failed to stash changes and received no output", by simp [hr, h1, h2]⟩
        · exact ⟨"failed to stash changes: " ++ r.output, by simp [hr, h1, h2]⟩
      · exact ⟨"failed to stash changes: " ++ r.err, by simp [hr, h1]⟩

/-- The commands `unstashChanges` issues: the stash apply, and the reset
exactly when the apply outcome is accepted. -/
theorem unstashChanges_snd (env : Env) (s : WfState) :
    (unstashChanges env s).2
      = (if okOutcome (env.exec s.execCount) = true
         then { s with trace := s.trace ++ [stashApplyCmd, resetCmd],
                       execCount := s.execCount + 1 + 1 }
         else { s with trace := s.trace ++ [stashApplyCmd],
                       execCount := s.execCount + 1 }) := by
  simp only [unstashChanges, execCmd]
  cases h : env.exec s.execCount with
  | goErr e => simp [okOutcome]
  | res r =>
    by_cases hr : r.success
    · simp only [okOutcome, hr, if_true]
      cases h2 : env.exec (s.execCount + 1) with
      | goErr e => simp
      | res r2 => by_cases hr2 : r2.success <;> simp [hr2]
    · simp [okOutcome, hr]

/-- `unstashChanges` succeeds exactly when both outcomes are accepted. -/
theorem unstashChanges_fst_ok (env : Env) (s : WfState)
    (h : okOutcome (env.exec s.execCount) = true)
    (h2 : okOutcome (env.exec (s.execCount + 1)) = true) :
    (unstashChanges env s).1 = Except.ok () := by
  simp only [unstashChanges, execCmd]
  cases hc : env.exec s.execCount with
  | goErr e => rw [hc] at h; simp [okOutcome] at h
  | res r =>
    rw [hc] at h
    simp only [okOutcome] at h
    simp only [h, if_true]
    cases hc2 : env.exec (s.execCount + 1) with
    | goErr e => rw [hc2] at h2; simp [okOutcome] at h2
    | res r2 =>
      rw [hc2] at h2
      simp only [okOutcome] at h2
      simp [h2]

/-- When one of the two replay outcomes is not accepted, `unstashChanges`
reports an error. -/
theorem unstashChanges_fst_error (env : Env) (s : WfState)
    (h : (okOutcome (env.exec s.execCount)
          && okOutcome (env.exec (s.execCount + 1))) = false) :
    ∃ e, (unstashChanges env s).1 = Except.error e := by
  simp only [unstashChanges, execCmd]
  cases hc : env.exec s.execCount with
  | goErr e => exact ⟨_, rfl⟩
  | res r =>
    rw [hc] at h
    by_cases hr : r.success
    · simp only [okOutcome, hr, if_true, Bool.true_and] at h ⊢
      cases hc2 : env.exec (s.execCount + 1) with
      | goErr e => exact ⟨"failed to reset changes", by simp⟩
      | res r2 =>
        rw [hc2] at h
        simp only [okOutcome] at h
        exact ⟨"failed to reset changes", by simp [h]⟩
    · exact ⟨"failed to unstash changes", by simp [hr]⟩

/-- `deleteStash` always issues exactly the stash-drop command. -/
theorem deleteStash_snd (env : Env) (s : WfState) :
    (deleteStash env s).2
      = { s with trace := s.trace ++ [stashDropCmd], execCount := s.execCount + 1 } := by
  simp only [deleteStash, execCmd]
  cases h : env.exec s.execCount with
  | goErr e => rfl
  | res r => by_cases hr : r.success <;> simp [hr]

/-- `getStashDiff` always issues exactly the stash-show command and, on an
accepted outcome, returns its stdout. -/
theorem getStashDiff_eq (env : Env) (s : WfState) :
    getStashDiff env s
      = ((if okOutcome (env.exec s.execCount) = true
          then Except.ok (outcomeOut (env.exec s.execCount))
          else Except.error "failed to show stash diff"),
         { s with trace := s.trace ++ [stashShowCmd], execCount := s.execCount + 1 }) := by
  simp only [getStashDiff, execCmd]
  cases h : env.exec s.execCount with
  | goErr e => simp [okOutcome, outcomeOut]
  | res r => by_cases hr : r.success <;> simp [okOutcome, outcomeOut, hr]

/-! ## Counting stash-drop commands -/

/-- Appending commands among which no stash drop occurs leaves the
stash-drop count unchanged. -/
theorem count_drop_append (l cs : List Command) (h : stashDropCmd ∉ cs) :
    ((l ++ cs).count stashDropCmd) = l.count stashDropCmd := by
  simp [List.count_append, List.count_eq_zero.mpr h]

/-- The staging command is never the stash-drop command. -/
theorem drop_ne_apply (p : String) : stashDropCmd ≠ applyPatchCmd p := by
  simp [stashDropCmd, applyPatchCmd]

/-- The commit command is never the stash-drop command. -/
theorem drop_ne_commit (m : String) : stashDropCmd ≠ commitCmd m := by
  simp [stashDropCmd, commitCmd]

/-- The rev-parse command is never the stash-drop command. -/
theorem drop_ne_revParse : stashDropCmd ≠ revParseCmd := by
  simp [stashDropCmd, revParseCmd]

/-- The stash-push command is never the stash-drop command. -/
theorem drop_ne_push (st : String) : stashDropCmd ≠ stashPushCmd st := by
  simp [stashDropCmd, stashPushCmd]

/-- The stash-apply command is never the stash-drop command. -/
theorem drop_ne_applyStash : stashDropCmd ≠ stashApplyCmd := by
  simp [stashDropCmd, stashApplyCmd]

/-- The reset command is never the stash-drop command. -/
theorem drop_ne_reset : stashDropCmd ≠ resetCmd := by
  simp [stashDropCmd, resetCmd]

/-- The stash-show command is never the stash-drop command. -/
theorem drop_ne_show : stashDropCmd ≠ stashShowCmd := by
  simp [stashDropCmd, stashShowCmd]

/-- The plan executor never issues a stash-drop command. -/
theorem execPlan_count_drop (env : Env) :
    ∀ (l : List action) (i : Nat) (s : WfState),
      ((execPlan env l i s).trace.count stashDropCmd) = s.trace.count stashDropCmd := by
  intro l
  induction l with
  | nil => intro i s; simp [execPlan]
  | cons a rest ih =>
    intro i s
    simp only [execPlan, execCmd]
    cases hc : env.exec s.execCount with
    | goErr e =>
      rw [ih]
      exact count_drop_append _ _ (by simp [drop_ne_apply])
    | res r =>
      by_cases hr : r.success
      · simp only [hr, if_true]
        cases hc2 : env.exec (s.execCount + 1) with
        | goErr e =>
          rw [ih]
          simp only [addErr]
          rw [List.append_assoc]
          exact count_drop_append _ _ (by simp [drop_ne_apply, drop_ne_commit])
        | res r2 =>
          by_cases hr2 : r2.success
          · simp only [hr2, if_true]
            rw [ih]
            simp only [logPut]
            rw [List.append_assoc]
            exact count_drop_append _ _ (by simp [drop_ne_apply, drop_ne_commit])
          · simp only [hr2, Bool.false_eq_true, if_false]
            rw [ih]
            simp only [addErr]
            rw [List.append_assoc]
            exact count_drop_append _ _ (by simp [drop_ne_apply, drop_ne_commit])
      · simp only [hr, Bool.false_eq_true, if_false]
        rw [ih]
        exact count_drop_append _ _ (by simp [drop_ne_apply])

/-- The negotiation loop never issues a stash-drop command. -/
theorem negotiationLoop_count_drop (env : Env) :
    ∀ (fuel round : Nat) (s : WfState),
      ((negotiationLoop env fuel round s).2.trace.count stashDropCmd)
        = s.trace.count stashDropCmd := by
  intro fuel
  induction fuel with
  | zero => intro round s; simp [negotiationLoop]
  | succ n ih =>
    intro round s
    simp only [negotiationLoop, logPut]
    by_cases hd : env.done round
    · simp [hd]
    · simp only [hd, Bool.false_eq_true, if_false]
      cases hg : env.gen s.genCount with
      | error e => simp [hg]
      | ok resp =>
        cases hp : env.parsePlan resp with
        | error e => simp [hg, hp]
        | ok plan =>
          by_cases hsel : env.sel s.selCount
          · simp only [hg, hp, hsel, if_true]
            rw [execPlan_count_drop]
          · simp only [hg, hp, hsel, Bool.false_eq_true, if_false]
            rw [ih]

/-- The body of `OnStart` never issues a stash-drop command. -/
theorem runBody_count_drop (env : Env) (fuel : Nat) (s : WfState) :
    ((runBody env fuel s).2.trace.count stashDropCmd) = s.trace.count stashDropCmd := by
  simp only [runBody, logPut]
  rw [getStashDiff_eq]
  by_cases h : okOutcome (env.exec s.execCount) = true
  · simp only [h, if_true]
    by_cases hb : outcomeOut (env.exec s.execCount) = ""
    · simp only [hb, if_true]
      exact count_drop_append _ _ (by simp [drop_ne_show])
    · simp only [hb, if_false]
      rw [negotiationLoop_count_drop]
      exact count_drop_append _ _ (by simp [drop_ne_show])
  · simp only [h, if_false]
    exact count_drop_append _ _ (by simp [drop_ne_show])

/-- Splitting a pair into its components (for reducing matches on opaque
pair-valued calls). -/
theorem prodSplit {α β : Type} (p : α × β) : p = (p.1, p.2) := rfl

/-- C1 amended: the stash-drop release is issued exactly once per run of
`OnStart` when the repository check, capture, and replay all succeed (no
matter what fails later), and zero times when one of those setup steps
fails — the deferred release is registered only after the replay. -/
theorem c1_amended (env : Env) (fuel : Nat) (conv0 : List Message) :
    ((OnStart env fuel conv0).2.trace.count stashDropCmd)
      = if setupOk env then 1 else 0 := by
  have z1 : List.count stashDropCmd [revParseCmd] = 0 :=
    List.count_eq_zero.mpr (by simp [drop_ne_revParse])
  have z2 : List.count stashDropCmd [revParseCmd, stashPushCmd env.stamp] = 0 :=
    List.count_eq_zero.mpr (by simp [drop_ne_revParse, drop_ne_push])
  have z3 : List.count stashDropCmd [revParseCmd, stashPushCmd env.stamp, stashApplyCmd] = 0 :=
    List.count_eq_zero.mpr (by simp [drop_ne_revParse, drop_ne_push, drop_ne_applyStash])
  have z4 : List.count stashDropCmd
      [revParseCmd, stashPushCmd env.stamp, stashApplyCmd, resetCmd] = 0 :=
    List.count_eq_zero.mpr
      (by simp [drop_ne_revParse, drop_ne_push, drop_ne_applyStash, drop_ne_reset])
  simp only [OnStart, logPut, initState]
  rw [checkGitRepository_eq]
  by_cases h0 : okOutcome (env.exec 0) = true
  · simp only [h0, if_true]
    rw [stashChanges_eq]
    by_cases h1 : stashOutcomeOk (env.exec 1) = true
    · simp only [h1, if_true]
      rw [prodSplit (unstashChanges env _)]
      by_cases h2 : okOutcome (env.exec 2) = true
      · by_cases h3 : okOutcome (env.exec 3) = true
        · rw [unstashChanges_fst_ok env _ (by simpa using h2) (by simpa using h3)]
          rw [unstashChanges_snd]
          simp only [h2, if_true]
          rw [prodSplit (runBody env fuel _)]
          rw [prodSplit (deleteStash env _)]
          cases hdr : (deleteStash env ((runBody env fuel _).2)).1 with
          | error e =>
            simp only [logPut, deleteStash_snd]
            rw [List.count_append, runBody_count_drop]
            simp [setupOk, h0, h1, h2, h3, List.count_append, z4]
          | ok u =>
            simp only [logPut, deleteStash_snd]
            rw [List.count_append, runBody_count_drop]
            simp [setupOk, h0, h1, h2, h3, List.count_append, z4]
        · obtain ⟨e, he⟩ := unstashChanges_fst_error env
            { execCount := 0 + 1 + 1, genCount := 0, selCount := 0, inpCount := 0,
              trace := [] ++ [revParseCmd] ++ [stashPushCmd env.stamp], genTrace := [],
              conversation := conv0 ++ [{ role := Role.system, content := agentPrompt }],
              logs := [] ++ ["Starting commit usecase"] ++ ["Stashing changes"], errs := [] }
            (by simp at h3 ⊢; simp [h3])
          rw [he]
          rw [unstashChanges_snd]
          simp only [h2, if_true]
          simp [setupOk, h0, h1, h3, List.count_append, z4]
      · obtain ⟨e, he⟩ := unstashChanges_fst_error env
          { execCount := 0 + 1 + 1, genCount := 0, selCount := 0, inpCount := 0,
            trace := [] ++ [revParseCmd] ++ [stashPushCmd env.stamp], genTrace := [],
            conversation := conv0 ++ [{ role := Role.system, content := agentPrompt }],
            logs := [] ++ ["Starting commit usecase"] ++ ["Stashing changes"], errs := [] }
          (by simp at h2 ⊢; simp [h2])
        rw [he]
        rw [unstashChanges_snd]
        simp only [h2, Bool.false_eq_true, if_false]
        simp [setupOk, h0, h2, List.count_append, z3]
    · cases hsc : (stashChanges env
          { execCount := 0 + 1, genCount := 0, selCount := 0, inpCount := 0,
            trace := [] ++ [revParseCmd], genTrace := [],
            conversation := conv0 ++ [{ role := Role.system, content := agentPrompt }],
            logs := [] ++ ["Starting commit usecase"] ++ ["Stashing changes"], errs := [] }).1 with
      | error e =>
        simp only [h1, Bool.false_eq_true, if_false, hsc]
        simp [setupOk, h1, List.count_append, z2]
      | ok u =>
        obtain ⟨e, he⟩ := stashChanges_fst_error env
          { execCount := 0 + 1, genCount := 0, selCount := 0, inpCount := 0,
            trace := [] ++ [revParseCmd], genTrace := [],
            conversation := conv0 ++ [{ role := Role.system, content := agentPrompt }],
            logs := [] ++ ["Starting commit usecase"] ++ ["Stashing changes"], errs := [] }
          (by simpa using h1)
        rw [he] at hsc
        simp at hsc
  · simp only [h0, Bool.false_eq_true, if_false]
    simp [setupOk, h0, List.count_append, z1]

/-! ## Characterization of the success path of `OnStart` -/

/-- When the repository check, capture, and replay all succeed, `OnStart`
is the body followed by the deferred release, from the setup state. -/
theorem OnStart_setup (env : Env) (fuel : Nat) (conv0 : List Message)
    (h0 : okOutcome (env.exec 0) = true) (h1 : stashOutcomeOk (env.exec 1) = true)
    (h2 : okOutcome (env.exec 2) = true) (h3 : okOutcome (env.exec 3) = true) :
    OnStart env fuel conv0 = afterSetup env fuel conv0 := by
  simp only [OnStart, logPut, initState]
  rw [checkGitRepository_eq]
  simp only [h0, if_true]
  rw [stashChanges_eq]
  simp only [h1, if_true]
  rw [prodSplit (unstashChanges env _)]
  rw [unstashChanges_fst_ok env _ (by simpa using h2) (by simpa using h3)]
  rw [unstashChanges_snd]
  simp only [h2, if_true]
  simp only [afterSetup, setupState, sysMsg, logPut]
  simp

/-- Projections of `afterSetup`: the result is the body's result; the trace
is the body's trace plus the one release command; the backend-call count,
the transcripts, and the accumulated errors are the body's. -/
theorem afterSetup_parts (env : Env) (fuel : Nat) (conv0 : List Message) :
    (afterSetup env fuel conv0).1 = (runBody env fuel (setupState env conv0)).1
    ∧ (afterSetup env fuel conv0).2.trace
        = (runBody env fuel (setupState env conv0)).2.trace ++ [stashDropCmd]
    ∧ (afterSetup env fuel conv0).2.genCount
        = (runBody env fuel (setupState env conv0)).2.genCount
    ∧ (afterSetup env fuel conv0).2.genTrace
        = (runBody env fuel (setupState env conv0)).2.genTrace
    ∧ (afterSetup env fuel conv0).2.errs
        = (runBody env fuel (setupState env conv0)).2.errs := by
  simp only [afterSetup]
  rw [prodSplit (deleteStash env _)]
  cases hdr : (deleteStash env (runBody env fuel (setupState env conv0)).2).1 with
  | error e => simp [logPut, deleteStash_snd, hdr]
  | ok u => simp [deleteStash_snd, hdr]

/-- The body of `OnStart` on an empty extracted diff: terminate
successfully after issuing only the diff command. -/
theorem runBody_empty (env : Env) (fuel : Nat) (s : WfState) (r : ExecResult)
    (h : env.exec s.execCount = ExecOutcome.res r) (hs : r.success = true)
    (hout : r.output = "") :
    runBody env fuel s
      = (Except.ok (),
         { s with trace := s.trace ++ [stashShowCmd], execCount := s.execCount + 1,
                  logs := s.logs ++ ["Getting stash diff", "Stash diff: " ++ r.output,
                                     "No changes to commit"] }) := by
  rw [runBody, getStashDiff_eq]
  simp [logPut, h, okOutcome, outcomeOut, hs, hout]

/-- The body of `OnStart` on a non-empty extracted diff: append the diff to
the conversation as a user turn and enter the negotiation loop. -/
theorem runBody_nonempty (env : Env) (fuel : Nat) (s : WfState) (r : ExecResult)
    (h : env.exec s.execCount = ExecOutcome.res r) (hs : r.success = true)
    (hne : r.output ≠ "") :
    runBody env fuel s
      = negotiationLoop env fuel 0
          { s with trace := s.trace ++ [stashShowCmd], execCount := s.execCount + 1,
                   conversation := s.conversation ++ [userMsg r.output],
                   logs := s.logs ++ ["Getting stash diff", "Stash diff: " ++ r.output] } := by
  rw [runBody, getStashDiff_eq]
  simp [logPut, h, okOutcome, outcomeOut, hs, hne]

/-! ## Characterization of one negotiation round -/

/-- A round whose backend response fails to unmarshal: the loop stops with
the unmarshal error, having consumed one backend call and issued no
command. -/
theorem negotiationLoop_parse_fail (env : Env) (fuel round : Nat) (s : WfState)
    (resp e : String)
    (hd : env.done round = false)
    (hg : env.gen s.genCount = Except.ok resp)
    (hp : env.parsePlan resp = Except.error e) :
    negotiationLoop env (fuel + 1) round s
      = (Except.error ("failed to unmarshal commit plan: " ++ e),
         { s with genCount := s.genCount + 1, genTrace := s.genTrace ++ [s.conversation],
                  logs := s.logs ++ ["Creating commit plan", "Raw Commit plan: " ++ resp] }) := by
  simp [negotiationLoop, logPut, hd, hg, hp]

/-- A round whose plan is accepted: the plan executor runs and the loop
returns success. -/
theorem negotiationLoop_accept (env : Env) (fuel round : Nat) (s : WfState)
    (resp : String) (plan : commitPlan)
    (hd : env.done round = false)
    (hg : env.gen s.genCount = Except.ok resp)
    (hp : env.parsePlan resp = Except.ok plan)
    (hsel : env.sel s.selCount = true) :
    negotiationLoop env (fuel + 1) round s
      = (Except.ok (),
         execPlan env plan.CommitPlan 0
           { s with genCount := s.genCount + 1, genTrace := s.genTrace ++ [s.conversation],
                    selCount := s.selCount + 1,
                    logs := s.logs
                      ++ ["Creating commit plan", "Raw Commit plan: " ++ resp, "Commit Plan:"]
                      ++ plan.CommitPlan.map (fun a => "\t" ++ a.CommitMessage) }) := by
  simp [negotiationLoop, logPut, hd, hg, hp, hsel]

/-- A round whose plan is rejected: the refinement text read from the input
area is appended to the conversation as a user turn, the proposed plan is
dropped, and the loop continues with the next round. -/
theorem negotiationLoop_reject (env : Env) (fuel round : Nat) (s : WfState)
    (resp : String) (plan : commitPlan)
    (hd : env.done round = false)
    (hg : env.gen s.genCount = Except.ok resp)
    (hp : env.parsePlan resp = Except.ok plan)
    (hsel : env.sel s.selCount = false) :
    negotiationLoop env (fuel + 1) round s
      = negotiationLoop env fuel (round + 1)
          { s with genCount := s.genCount + 1, genTrace := s.genTrace ++ [s.conversation],
                   selCount := s.selCount + 1, inpCount := s.inpCount + 1,
                   conversation := s.conversation ++ [userMsg (env.inp s.inpCount)],
                   logs := s.logs
                     ++ ["Creating commit plan", "Raw Commit plan: " ++ resp, "Commit Plan:"]
                     ++ plan.CommitPlan.map (fun a => "\t" ++ a.CommitMessage) } := by
  simp [negotiationLoop, logPut, hd, hg, hp, hsel]

/-- C5 amended: a run whose extracted snapshot diff is empty terminates
successfully, creates zero commits (no staging and no commit invocation),
and issues exactly the repository check, capture, replay (apply and
reset), diff extraction, and release commands. -/
theorem c5_amended (env : Env) (fuel : Nat) (conv0 : List Message) (r4 : ExecResult)
    (h0 : okOutcome (env.exec 0) = true)
    (h1 : stashOutcomeOk (env.exec 1) = true)
    (h2 : okOutcome (env.exec 2) = true)
    (h3 : okOutcome (env.exec 3) = true)
    (h4 : env.exec 4 = ExecOutcome.res r4) (hs4 : r4.success = true)
    (hout : r4.output = "") :
    (OnStart env fuel conv0).1 = Except.ok ()
    ∧ (OnStart env fuel conv0).2.trace
        = [revParseCmd, stashPushCmd env.stamp, stashApplyCmd, resetCmd,
           stashShowCmd, stashDropCmd]
    ∧ (∀ m, commitCmd m ∉ (OnStart env fuel conv0).2.trace)
    ∧ (∀ p, applyPatchCmd p ∉ (OnStart env fuel conv0).2.trace) := by
  have hsetup := OnStart_setup env fuel conv0 h0 h1 h2 h3
  obtain ⟨p1, p2, -, -, -⟩ := afterSetup_parts env fuel conv0
  have hbody := runBody_empty env fuel (setupState env conv0) r4
    (by simpa [setupState] using h4) hs4 hout
  have htr : (OnStart env fuel conv0).2.trace
      = [revParseCmd, stashPushCmd env.stamp, stashApplyCmd, resetCmd,
         stashShowCmd, stashDropCmd] := by
    rw [hsetup, p2, hbody]
    simp [setupState]
  refine ⟨?_, htr, ?_, ?_⟩
  · rw [hsetup, p1, hbody]
  · intro m
    rw [htr]
    simp [commitCmd, revParseCmd, stashPushCmd, stashApplyCmd, resetCmd,
      stashShowCmd, stashDropCmd]
  · intro p
    rw [htr]
    simp [applyPatchCmd, revParseCmd, stashPushCmd, stashApplyCmd, resetCmd,
      stashShowCmd, stashDropCmd]

/-- Witness for C5 amended in the concrete empty-diff environment. -/
theorem c5_amended_witness :
    (OnStart envEmptyDiff 1 []).1 = Except.ok ()
    ∧ (OnStart envEmptyDiff 1 []).2.trace
        = [revParseCmd, stashPushCmd envEmptyDiff.stamp, stashApplyCmd, resetCmd,
           stashShowCmd, stashDropCmd]
    ∧ (∀ m, commitCmd m ∉ (OnStart envEmptyDiff 1 []).2.trace)
    ∧ (∀ p, applyPatchCmd p ∉ (OnStart envEmptyDiff 1 []).2.trace) :=
  c5_amended envEmptyDiff 1 [] { success := true, output := "", err := "" }
    (by decide) (by decide) (by decide) (by decide) rfl rfl rfl

/-- After any number of rejection rounds, a round whose backend response
fails to unmarshal stops the loop with the unmarshal error, without issuing
any command and without any further backend call. -/
theorem negotiationLoop_rejects_then_parse_fail (env : Env) :
    ∀ (k round fuel : Nat) (s : WfState) (resp : Nat -> String) (e : String),
      s.genCount = round -> s.selCount = round -> s.inpCount = round ->
      (∀ i, i ≤ k -> env.done (round + i) = false) ->
      (∀ i, i ≤ k -> env.gen (round + i) = Except.ok (resp i)) ->
      (∀ i, i < k -> ∃ p, env.parsePlan (resp i) = Except.ok p) ->
      (∀ i, i < k -> env.sel (round + i) = false) ->
      env.parsePlan (resp k) = Except.error e ->
      k < fuel ->
      (negotiationLoop env fuel round s).1
          = Except.error ("failed to unmarshal commit plan: " ++ e)
      ∧ (negotiationLoop env fuel round s).2.trace = s.trace
      ∧ (negotiationLoop env fuel round s).2.genCount = round + k + 1 := by
  intro k
  induction k with
  | zero =>
    intro round fuel s resp e hg hs hi hdone hgen hparse hsel hbad hfuel
    obtain ⟨f, rfl⟩ : ∃ f, fuel = f + 1 := ⟨fuel - 1, by omega⟩
    rw [negotiationLoop_parse_fail env f round s (resp 0) e
      (by simpa using hdone 0 (by omega))
      (by rw [hg]; simpa using hgen 0 (by omega)) hbad]
    simp [hg]
  | succ n ih =>
    intro round fuel s resp e hg hs hi hdone hgen hparse hsel hbad hfuel
    obtain ⟨f, rfl⟩ : ∃ f, fuel = f + 1 := ⟨fuel - 1, by omega⟩
    obtain ⟨p0, hp0⟩ := hparse 0 (Nat.succ_pos n)
    rw [negotiationLoop_reject env f round s (resp 0) p0
      (by simpa using hdone 0 (by omega))
      (by rw [hg]; simpa using hgen 0 (by omega)) hp0
      (by rw [hs]; simpa using hsel 0 (by omega))]
    have hres := ih (round + 1) f
      { s with genCount := s.genCount + 1, genTrace := s.genTrace ++ [s.conversation],
               selCount := s.selCount + 1, inpCount := s.inpCount + 1,
               conversation := s.conversation ++ [userMsg (env.inp s.inpCount)],
               logs := s.logs
                 ++ ["Creating commit plan", "Raw Commit plan: " ++ resp 0, "Commit Plan:"]
                 ++ p0.CommitPlan.map (fun a => "\t" ++ a.CommitMessage) }
      (fun i => resp (i + 1)) e
      (by simp [hg]) (by simp [hs]) (by simp [hi])
      (fun i hi2 => by
        have := hdone (i + 1) (by omega)
        simpa [Nat.add_assoc, Nat.add_comm 1 i] using this)
      (fun i hi2 => by
        have := hgen (i + 1) (by omega)
        simpa [Nat.add_assoc, Nat.add_comm 1 i] using this)
      (fun i hi2 => hparse (i + 1) (by omega))
      (fun i hi2 => by
        have := hsel (i + 1) (by omega)
        simpa [Nat.add_assoc, Nat.add_comm 1 i] using this)
      hbad (by omega)
    refine ⟨hres.1, ?_, ?_⟩
    · rw [hres.2.1]
    · rw [hres.2.2]; omega

/-- C6: a backend response that is not valid JSON for the commit-plan wire
format (in any round, after any number of rejection rounds) makes `OnStart`
fail with the unmarshal (plan-format) error for that round, with no further
backend call, and with no patch-apply and no commit invocation issued in
the whole run. -/
theorem c6_plan_format_error (env : Env) (fuel k : Nat) (conv0 : List Message)
    (r4 : ExecResult) (resp : Nat -> String) (e : String)
    (h0 : okOutcome (env.exec 0) = true) (h1 : stashOutcomeOk (env.exec 1) = true)
    (h2 : okOutcome (env.exec 2) = true) (h3 : okOutcome (env.exec 3) = true)
    (h4 : env.exec 4 = ExecOutcome.res r4) (hs4 : r4.success = true)
    (hne : r4.output ≠ "")
    (hdone : ∀ i, i ≤ k -> env.done i = false)
    (hgen : ∀ i, i ≤ k -> env.gen i = Except.ok (resp i))
    (hparse : ∀ i, i < k -> ∃ p, env.parsePlan (resp i) = Except.ok p)
    (hsel : ∀ i, i < k -> env.sel i = false)
    (hbad : env.parsePlan (resp k) = Except.error e)
    (hfuel : k < fuel) :
    (OnStart env fuel conv0).1
        = Except.error ("failed to unmarshal commit plan: " ++ e)
    ∧ (OnStart env fuel conv0).2.genCount = k + 1
    ∧ (OnStart env fuel conv0).2.trace
        = [revParseCmd, stashPushCmd env.stamp, stashApplyCmd, resetCmd,
           stashShowCmd, stashDropCmd]
    ∧ (∀ p, applyPatchCmd p ∉ (OnStart env fuel conv0).2.trace)
    ∧ (∀ m, commitCmd m ∉ (OnStart env fuel conv0).2.trace) := by
  have hsetup := OnStart_setup env fuel conv0 h0 h1 h2 h3
  obtain ⟨p1, p2, p3, -, -⟩ := afterSetup_parts env fuel conv0
  have hbody := runBody_nonempty env fuel (setupState env conv0) r4
    (by simpa [setupState] using h4) hs4 hne
  have hloop := negotiationLoop_rejects_then_parse_fail env k 0 fuel
    { setupState env conv0 with
      trace := (setupState env conv0).trace ++ [stashShowCmd],
      execCount := (setupState env conv0).execCount + 1,
      conversation := (setupState env conv0).conversation ++ [userMsg r4.output],
      logs := (setupState env conv0).logs ++ ["Getting stash diff", "Stash diff: " ++ r4.output] }
    resp e (by simp [setupState]) (by simp [setupState]) (by simp [setupState])
    (fun i hi => by simpa using hdone i hi)
    (fun i hi => by simpa using hgen i hi)
    hparse
    (fun i hi => by simpa using hsel i hi)
    hbad hfuel
  have htr : (OnStart env fuel conv0).2.trace
      = [revParseCmd, stashPushCmd env.stamp, stashApplyCmd, resetCmd,
         stashShowCmd, stashDropCmd] := by
    rw [hsetup, p2, hbody, hloop.2.1]
    simp [setupState]
  refine ⟨?_, ?_, htr, ?_, ?_⟩
  · rw [hsetup, p1, hbody, hloop.1]
  · rw [hsetup, p3, hbody, hloop.2.2]
    omega
  · intro p
    rw [htr]
    simp [applyPatchCmd, revParseCmd, stashPushCmd, stashApplyCmd, resetCmd,
      stashShowCmd, stashDropCmd]
  · intro m
    rw [htr]
    simp [commitCmd, revParseCmd, stashPushCmd, stashApplyCmd, resetCmd,
      stashShowCmd, stashDropCmd]

/-- Witness for C6 in the concrete environment where the first plan is
rejected and the second backend response is malformed (one rejection
round, then a plan-format failure). -/
theorem c6_plan_format_error_witness :
    (OnStart envParseFails 5 []).1
        = Except.error ("failed to unmarshal commit plan: " ++ "invalid character")
    ∧ (OnStart envParseFails 5 []).2.genCount = 1 + 1
    ∧ (OnStart envParseFails 5 []).2.trace
        = [revParseCmd, stashPushCmd envParseFails.stamp, stashApplyCmd, resetCmd,
           stashShowCmd, stashDropCmd]
    ∧ (∀ p, applyPatchCmd p ∉ (OnStart envParseFails 5 []).2.trace)
    ∧ (∀ m, commitCmd m ∉ (OnStart envParseFails 5 []).2.trace) :=
  c6_plan_format_error envParseFails 5 1 []
    { success := true, output := "On main: nomi work", err := "" }
    respParseFails "invalid character"
    (by decide) (by decide) (by decide) (by decide) rfl rfl (by decide)
    (fun i _ => rfl) (fun i _ => rfl)
    (fun i hi => ⟨{ CommitPlan := [{ FilePath := "f.go", Patch := "p", CommitMessage := "m" }] },
      by
        have : i = 0 := by omega
        subst this
        rfl⟩)
    (fun i _ => rfl) rfl (by omega)

/-- The plan executor when every invocation succeeds: it issues the
staging and commit commands of each action in plan order and logs one
confirmation per action. -/
theorem execPlan_all_ok (env : Env) :
    ∀ (l : List action) (i : Nat) (s : WfState),
      (∀ j, s.execCount ≤ j -> okOutcome (env.exec j) = true) ->
      execPlan env l i s
        = { s with trace := s.trace ++ planCmds l,
                   execCount := s.execCount + 2 * l.length,
                   logs := s.logs ++ l.map (fun a => "Committed " ++ a.CommitMessage) } := by
  intro l
  induction l with
  | nil => intro i s h; simp [execPlan, planCmds]
  | cons a rest ih =>
    intro i s h
    have h1 : okOutcome (env.exec s.execCount) = true := h _ (Nat.le_refl _)
    have h2 : okOutcome (env.exec (s.execCount + 1)) = true := h _ (by omega)
    simp only [execPlan, execCmd]
    cases hc : env.exec s.execCount with
    | goErr e => rw [hc] at h1; simp [okOutcome] at h1
    | res r =>
      rw [hc] at h1
      simp only [okOutcome] at h1
      simp only [h1, if_true]
      cases hc2 : env.exec (s.execCount + 1) with
      | goErr e => rw [hc2] at h2; simp [okOutcome] at h2
      | res r2 =>
        rw [hc2] at h2
        simp only [okOutcome] at h2
        simp only [h2, if_true]
        rw [ih (i + 1) _ (by intro j hj; exact h j (by simp [logPut] at hj; omega))]
        simp [logPut, planCmds]
        omega

/-- The plan executor leaves the backend-call count, the transcripts, the
conversation, and the accumulated errors of prior rounds untouched except
for appending its own errors. -/
theorem execPlan_preserves (env : Env) :
    ∀ (l : List action) (i : Nat) (s : WfState),
      (execPlan env l i s).genCount = s.genCount
      ∧ (execPlan env l i s).genTrace = s.genTrace
      ∧ (execPlan env l i s).conversation = s.conversation := by
  intro l
  induction l with
  | nil => intro i s; exact ⟨rfl, rfl, rfl⟩
  | cons a rest ih =>
    intro i s
    simp only [execPlan, execCmd]
    cases hc : env.exec s.execCount with
    | goErr e => simpa [addErr] using ih (i + 1) _
    | res r =>
      by_cases hr : r.success
      · simp only [hr, if_true]
        cases hc2 : env.exec (s.execCount + 1) with
        | goErr e => simpa [addErr] using ih (i + 1) _
        | res r2 =>
          by_cases hr2 : r2.success
          · simp only [hr2, if_true]
            simpa [logPut] using ih (i + 1) _
          · simp only [hr2, Bool.false_eq_true, if_false]
            simpa [addErr] using ih (i + 1) _
      · simp only [hr, Bool.false_eq_true, if_false]
        simpa [addErr] using ih (i + 1) _

/-- C7: when a proposed plan is rejected, the refinement text read from the
user is appended to the conversation as a new user turn and becomes the
most recent turn of the next backend request; the rejected plan is
discarded wholesale (only the accepted round's plan is executed), and a
fresh backend request is made. -/
theorem c7_refinement_round (env : Env) (fuel : Nat) (conv0 : List Message)
    (r4 : ExecResult) (respA respB instr : String) (planA planB2 : commitPlan)
    (h0 : okOutcome (env.exec 0) = true) (h1 : stashOutcomeOk (env.exec 1) = true)
    (h2 : okOutcome (env.exec 2) = true) (h3 : okOutcome (env.exec 3) = true)
    (h4 : env.exec 4 = ExecOutcome.res r4) (hs4 : r4.success = true)
    (hne : r4.output ≠ "")
    (hd0 : env.done 0 = false) (hd1 : env.done 1 = false)
    (hg0 : env.gen 0 = Except.ok respA) (hpA : env.parsePlan respA = Except.ok planA)
    (hsel0 : env.sel 0 = false) (hinp : env.inp 0 = instr)
    (hg1 : env.gen 1 = Except.ok respB) (hpB : env.parsePlan respB = Except.ok planB2)
    (hsel1 : env.sel 1 = true)
    (hexec : ∀ j, 5 ≤ j -> okOutcome (env.exec j) = true)
    (hfuel : 2 ≤ fuel) :
    (OnStart env fuel conv0).1 = Except.ok ()
    ∧ (OnStart env fuel conv0).2.genTrace
        = [conv0 ++ [sysMsg, userMsg r4.output],
           conv0 ++ [sysMsg, userMsg r4.output, userMsg instr]]
    ∧ (OnStart env fuel conv0).2.genCount = 2
    ∧ (OnStart env fuel conv0).2.trace
        = [revParseCmd, stashPushCmd env.stamp, stashApplyCmd, resetCmd, stashShowCmd]
          ++ planCmds planB2.CommitPlan ++ [stashDropCmd] := by
  obtain ⟨f, rfl⟩ : ∃ f, fuel = f + 1 + 1 := ⟨fuel - 2, by omega⟩
  have hsetup := OnStart_setup env (f + 1 + 1) conv0 h0 h1 h2 h3
  obtain ⟨p1, p2, p3, p4, -⟩ := afterSetup_parts env (f + 1 + 1) conv0
  have hbody := runBody_nonempty env (f + 1 + 1) (setupState env conv0) r4
    (by simpa [setupState] using h4) hs4 hne
  have step1 := negotiationLoop_reject env (f + 1) 0
    { setupState env conv0 with
      trace := (setupState env conv0).trace ++ [stashShowCmd],
      execCount := (setupState env conv0).execCount + 1,
      conversation := (setupState env conv0).conversation ++ [userMsg r4.output],
      logs := (setupState env conv0).logs
        ++ ["Getting stash diff", "Stash diff: " ++ r4.output] }
    respA planA hd0 (by simpa [setupState] using hg0) hpA
    (by simpa [setupState] using hsel0)
  have step2 := negotiationLoop_accept env f (0 + 1)
    { { setupState env conv0 with
        trace := (setupState env conv0).trace ++ [stashShowCmd],
        execCount := (setupState env conv0).execCount + 1,
        conversation := (setupState env conv0).conversation ++ [userMsg r4.output],
        logs := (setupState env conv0).logs
          ++ ["Getting stash diff", "Stash diff: " ++ r4.output] } with
      genCount := { setupState env conv0 with
        trace := (setupState env conv0).trace ++ [stashShowCmd],
        execCount := (setupState env conv0).execCount + 1,
        conversation := (setupState env conv0).conversation ++ [userMsg r4.output],
        logs := (setupState env conv0).logs
          ++ ["Getting stash diff", "Stash diff: " ++ r4.output] }.genCount + 1,
      genTrace := { setupState env conv0 with
        trace := (setupState env conv0).trace ++ [stashShowCmd],
        execCount := (setupState env conv0).execCount + 1,
        conversation := (setupState env conv0).conversation ++ [userMsg r4.output],
        logs := (setupState env conv0).logs
          ++ ["Getting stash diff", "Stash diff: " ++ r4.output] }.genTrace
        ++ [{ setupState env conv0 with
        trace := (setupState env conv0).trace ++ [stashShowCmd],
        execCount := (setupState env conv0).execCount + 1,
        conversation := (setupState env conv0).conversation ++ [userMsg r4.output],
        logs := (setupState env conv0).logs
          ++ ["Getting stash diff", "Stash diff: " ++ r4.output] }.conversation],
      selCount := { setupState env conv0 with
        trace := (setupState env conv0).trace ++ [stashShowCmd],
        execCount := (setupState env conv0).execCount + 1,
        conversation := (setupState env conv0).conversation ++ [userMsg r4.output],
        logs := (setupState env conv0).logs
          ++ ["Getting stash diff", "Stash diff: " ++ r4.output] }.selCount + 1,
      inpCount := { setupState env conv0 with
        trace := (setupState env conv0).trace ++ [stashShowCmd],
        execCount := (setupState env conv0).execCount + 1,
        conversation := (setupState env conv0).conversation ++ [userMsg r4.output],
        logs := (setupState env conv0).logs
          ++ ["Getting stash diff", "Stash diff: " ++ r4.output] }.inpCount + 1,
      conversation := { setupState env conv0 with
        trace := (setupState env conv0).trace ++ [stashShowCmd],
        execCount := (setupState env conv0).execCount + 1,
        conversation := (setupState env conv0).conversation ++ [userMsg r4.output],
        logs := (setupState env conv0).logs
          ++ ["Getting stash diff", "Stash diff: " ++ r4.output] }.conversation
        ++ [userMsg (env.inp { setupState env conv0 with
        trace := (setupState env conv0).trace ++ [stashShowCmd],
        execCount := (setupState env conv0).execCount + 1,
        conversation := (setupState env conv0).conversation ++ [userMsg r4.output],
        logs := (setupState env conv0).logs
          ++ ["Getting stash diff", "Stash diff: " ++ r4.output] }.inpCount)],
      logs := { setupState env conv0 with
        trace := (setupState env conv0).trace ++ [stashShowCmd],
        execCount := (setupState env conv0).execCount + 1,
        conversation := (setupState env conv0).conversation ++ [userMsg r4.output],
        logs := (setupState env conv0).logs
          ++ ["Getting stash diff", "Stash diff: " ++ r4.output] }.logs
        ++ ["Creating commit plan", "Raw Commit plan: " ++ respA, "Commit Plan:"]
        ++ planA.CommitPlan.map (fun a => "\t" ++ a.CommitMessage) }
    respB planB2 (by simpa using hd1) (by simpa [setupState] using hg1) hpB
    (by simpa [setupState] using hsel1)
  rw [step1] at hbody
  rw [step2] at hbody
  refine ⟨?_, ?_, ?_, ?_⟩
  · rw [hsetup, p1, hbody]
  · rw [hsetup, p4, hbody]
    show (execPlan env planB2.CommitPlan 0 _).genTrace = _
    rw [(execPlan_preserves env planB2.CommitPlan 0 _).2.1]
    simp [setupState, sysMsg, hinp]
  · rw [hsetup, p3, hbody]
    show (execPlan env planB2.CommitPlan 0 _).genCount = 2
    rw [(execPlan_preserves env planB2.CommitPlan 0 _).1]
    simp [setupState]
  · rw [hsetup, p2, hbody]
    show (execPlan env planB2.CommitPlan 0 _).trace ++ [stashDropCmd] = _
    rw [execPlan_all_ok env planB2.CommitPlan 0]
    · simp [setupState]
    · intro j hj
      refine hexec j ?_
      simp [setupState] at hj
      omega

/-- Witness for C7 in the concrete refine-then-accept environment with the
refinement text "focus only on the parser changes". -/
theorem c7_refinement_round_witness :
    (OnStart envRefine 2 []).1 = Except.ok ()
    ∧ (OnStart envRefine 2 []).2.genTrace
        = [[] ++ [sysMsg, userMsg "On main: nomi work"],
           [] ++ [sysMsg, userMsg "On main: nomi work",
                  userMsg "focus only on the parser changes"]]
    ∧ (OnStart envRefine 2 []).2.genCount = 2
    ∧ (OnStart envRefine 2 []).2.trace
        = [revParseCmd, stashPushCmd envRefine.stamp, stashApplyCmd, resetCmd, stashShowCmd]
          ++ planCmds planB.CommitPlan ++ [stashDropCmd] :=
  c7_refinement_round envRefine 2 []
    { success := true, output := "On main: nomi work", err := "" }
    "planA" "planB" "focus only on the parser changes"
    { CommitPlan := [{ FilePath := "f.go", Patch := "p", CommitMessage := "m" }] }
    planB
    (by decide) (by decide) (by decide) (by decide) rfl rfl (by decide)
    rfl rfl rfl rfl rfl rfl rfl rfl rfl
    (fun j _ => rfl) (by omega)
